import Mathlib

/-!
Verification of the chat message reconciliation core of an e-learning
web application, against its natural-language specification.

The development shallowly embeds:
 - the `allMessages` reconciler of the Chat component (merge of the
   paginated history window, the live push buffer, the optimistic outbox,
   and the tombstone set),
 - the send / edit / delete handlers of the Chat component,
 - the reconnect, connect-settlement and teardown logic of
   `WebSocketService`.

Timestamps (`createdAt`) are embedded as integer epoch milliseconds: the
source stores ISO strings and compares them through `Date.getTime()`,
so integer milliseconds with integer comparison is the exact semantics.
The JS array sort is embedded as a stable insertion sort: ECMAScript
requires `Array.prototype.sort` to be stable, and a stable sort with
respect to a total preorder is unique, so `List.insertionSort` computes
precisely the sorted array of the source.
-/

namespace CourseChat

/-- Lifecycle status of a chat message, `status` field of `ChatMessage`. -/
inductive MsgStatus where
  | pending
  | success
  | error
deriving DecidableEq, Repr

/-- The `ChatMessage` record of the source (fields used by the chat
component; display-only fields that no handler reads are kept as plain
strings). -/
structure Message where
  id : String
  tempId : Option String := none
  courseId : String := ""
  content : String := ""
  type : String := "TEXT"
  senderId : String := ""
  senderName : String := ""
  senderRole : String := ""
  createdAt : Int := 0
  status : Option MsgStatus := none
deriving DecidableEq, Repr

/-- Embedding of the JavaScript `String.prototype.trim`: strip leading
and trailing whitespace. -/
def jsTrim (s : String) : String :=
  String.mk (((s.data.dropWhile Char.isWhitespace).reverse.dropWhile Char.isWhitespace).reverse)

/-- First stage of `allMessages`: copy the loaded (history) messages and
unshift every live-buffer message whose id is truthy (non-empty) and not
already present among the loaded ids.  Successive `unshift` calls leave
the new live messages at the front in reverse arrival order. -/
def combinedMessages (loaded ws : List Message) : List Message :=
  (ws.filter fun w => decide (w.id ≠ "" ∧ w.id ∉ loaded.map Message.id)).reverse ++ loaded

/-- The duplicate test of the pending-message filter: exact id match, or
fuzzy match on content, sender and type with timestamps strictly less
than 10000 ms apart (`timeDiff < 10000` in the source). -/
def isDuplicateOf (msg p : Message) : Prop :=
  msg.id = p.id ∨
    (msg.content = p.content ∧ msg.senderId = p.senderId ∧ msg.type = p.type ∧
      (msg.createdAt - p.createdAt).natAbs < 10000)

instance instDecIsDuplicateOf (msg p : Message) : Decidable (isDuplicateOf msg p) := by
  unfold isDuplicateOf
  infer_instance

/-- The per-entry decision of the pending filter: a SUCCESS entry is kept
exactly when no combined message duplicates it; PENDING, ERROR and
status-less entries are always kept by this filter. -/
def keepPending (combined : List Message) (p : Message) : Bool :=
  if p.status = some MsgStatus.success then
    decide (¬ ∃ msg ∈ combined, isDuplicateOf msg p)
  else
    true

/-- The `pendingWithoutDuplicates` array of the source. -/
def pendingWithoutDuplicates (combined pending : List Message) : List Message :=
  pending.filter (keepPending combined)

/-- Comparator of the final sort: newest first, by `createdAt` descending.
`newestFirst a b` holds when `a` may come before `b`. -/
def newestFirst (a b : Message) : Prop := b.createdAt ≤ a.createdAt

instance instDecNewestFirst : DecidableRel newestFirst := fun a b => by
  unfold newestFirst
  infer_instance

instance instTotalNewestFirst : IsTotal Message newestFirst :=
  ⟨fun a b => Int.le_total b.createdAt a.createdAt⟩

instance instTransNewestFirst : IsTrans Message newestFirst :=
  ⟨fun _ _ _ hab hbc => le_trans hbc hab⟩

/-- The `allCombined` array of the source: combined history-plus-live
messages, then the surviving pending entries, with every entry whose id
is in the tombstone set filtered out. -/
def allCombined (loaded ws pending : List Message) (deleted : List String) : List Message :=
  (combinedMessages loaded ws ++ pendingWithoutDuplicates (combinedMessages loaded ws) pending).filter
    fun m => decide (m.id ∉ deleted)

/-- The reconciled `allMessages` value of the Chat component: the
tombstone-filtered combination, sorted by `createdAt` descending with
the stable array sort. -/
def allMessages (loaded ws pending : List Message) (deleted : List String) : List Message :=
  List.insertionSort newestFirst (allCombined loaded ws pending deleted)

/-- Request payload of the send mutation. -/
structure SendRequest where
  courseId : String
  content : String
  type : String
  tempId : String
deriving DecidableEq, Repr

/-- Request payload of the update mutation. -/
structure EditRequest where
  courseId : String
  messageId : String
  type : String
  content : String
deriving DecidableEq, Repr

/-- Component state of the Chat component: the pieces of React state the
send, edit and delete handlers read or write, plus the surfaced toast
errors and the two message sources held by the hooks. -/
structure ChatState where
  loadedMessages : List Message := []
  wsMessages : List Message := []
  pendingMessages : List Message := []
  deletedMessages : List String := []
  deletingMessages : List String := []
  updatingMessages : List String := []
  messageText : String := ""
  editingMessageId : Option String := none
  editingText : String := ""
  shouldScrollToBottom : Bool := false
  showEmojiPicker : Bool := false
  toasts : List String := []
deriving DecidableEq, Repr

/-- Modelled from the spec: the `removeMessage` operation of the history
hook and the `removeMessage` operation of the web-socket hook are not
among the provided sources; spec section 4.2 defines `remove(id)` as
deleting a message from the window by id, a no-op if the id is absent. -/
def removeById (msgs : List Message) (id : String) : List Message :=
  msgs.filter fun m => decide (m.id ≠ id)

/-- Modelled from the spec: the `updateMessage` operation of the history
hook is not among the provided sources; spec section 4.2 defines
`patch(id, partialFields)` as an in-place edit of the message with the
given id, a no-op if the id is absent.  The partial fields are embedded
as a function applied to the stored message. -/
def patchById (msgs : List Message) (id : String) (f : Message → Message) : List Message :=
  msgs.map fun m => if m.id = id then f m else m

def sendErrToast : String := "Failed to send message. Please try again."

def editErrToast : String := "Failed to update message. Please try again."

def deleteErrToast : String := "Failed to delete message. Please try again."

/-- Synchronous prefix of `handleSendMessage`: the guard on blank drafts,
the construction of the optimistic PENDING message and the issued network
request.  `emojiToText`, the session user and the clock are parameters of
the embedding.  Returns the updated state and the request, `none` when no
request is sent. -/
def handleSendMessage (emojiToText : String → String) (currentUserId userName : String)
    (courseId tempId : String) (now : Int) (s : ChatState) : ChatState × Option SendRequest :=
  if jsTrim s.messageText = "" then
    (s, none)
  else
    let contentToSend := emojiToText (jsTrim s.messageText)
    let optimistic : Message :=
      { id := tempId, tempId := some tempId, courseId := courseId,
        content := contentToSend, type := "TEXT", senderId := currentUserId,
        senderName := userName, senderRole := "STUDENT",
        createdAt := now, status := some MsgStatus.pending }
    ({ s with pendingMessages := s.pendingMessages ++ [optimistic],
              shouldScrollToBottom := true,
              messageText := "",
              showEmojiPicker := false },
      some { courseId := courseId, content := contentToSend, type := "TEXT", tempId := tempId })

/-- Continuation of `handleSendMessage` once the send settles: on success
the entry with the matching `tempId` receives the server id and SUCCESS
status; on failure it is marked ERROR and a toast is surfaced. -/
def handleSendResponse (s : ChatState) (tempId : String) (serverId : Option String) : ChatState :=
  match serverId with
  | some rid =>
      { s with
        pendingMessages := s.pendingMessages.map (fun m =>
          if m.tempId = some tempId then { m with id := rid, status := some MsgStatus.success } else m) }
  | none =>
      { s with
        pendingMessages := s.pendingMessages.map (fun m =>
          if m.tempId = some tempId then { m with status := some MsgStatus.error } else m),
        toasts := sendErrToast :: s.toasts }

/-- The state changes `handleDeleteMessage` performs before the remote
delete call returns: only the deleting-in-progress marker is added. -/
def handleDeleteBefore (s : ChatState) (messageId : String) : ChatState :=
  { s with deletingMessages := messageId :: s.deletingMessages }

/-- Full `handleDeleteMessage` run, with the remote outcome as a
parameter.  On success the message is removed from the history window and
the live buffer and its id is added to the tombstone set; on failure a
toast is surfaced and only the deleting-in-progress marker is cleared. -/
def handleDeleteMessage (s : ChatState) (messageId : String) (remoteSuccess : Bool) : ChatState :=
  let s1 := handleDeleteBefore s messageId
  if remoteSuccess then
    { s1 with loadedMessages := removeById s1.loadedMessages messageId,
              wsMessages := removeById s1.wsMessages messageId,
              deletedMessages := messageId :: s1.deletedMessages,
              deletingMessages := s1.deletingMessages.filter (fun x => decide (x ≠ messageId)) }
  else
    { s1 with toasts := deleteErrToast :: s1.toasts,
              deletingMessages := s1.deletingMessages.filter (fun x => decide (x ≠ messageId)) }

/-- Remote outcome of the update mutation: `success` carries the optional
authoritative `result.data` payload. -/
inductive EditOutcome where
  | success (payload : Option Message)
  | failure
deriving DecidableEq, Repr

/-- The part of `handleEditMessage` that runs before the remote update
settles: the blank guard, the updating-in-progress marker, the optimistic
content patch, and the issued request. -/
def handleEditBefore (s : ChatState) (courseId messageId : String) : ChatState × Option EditRequest :=
  if jsTrim s.editingText = "" then
    (s, none)
  else
    ({ s with updatingMessages := messageId :: s.updatingMessages,
              loadedMessages := patchById s.loadedMessages messageId
                (fun m => { m with content := jsTrim s.editingText }) },
      some { courseId := courseId, messageId := messageId, type := "TEXT",
             content := jsTrim s.editingText })

/-- The part of `handleEditMessage` that runs once the remote update
settles: on success the edit UI state is cleared and, when `result.data`
is present, the message is patched again with the authoritative payload;
on failure a toast is surfaced and nothing is rolled back.  The finally
block clears the updating-in-progress marker in both cases. -/
def handleEditAfter (s : ChatState) (messageId : String) (outcome : EditOutcome) : ChatState :=
  match outcome with
  | EditOutcome.success payload =>
      let s1 := { s with editingMessageId := none, editingText := "" }
      let s2 := match payload with
        | some d => { s1 with loadedMessages := patchById s1.loadedMessages messageId (fun _ => d) }
        | none => s1
      { s2 with updatingMessages := s2.updatingMessages.filter (fun x => decide (x ≠ messageId)) }
  | EditOutcome.failure =>
      { s with toasts := editErrToast :: s.toasts,
               updatingMessages := s.updatingMessages.filter (fun x => decide (x ≠ messageId)) }

/-- Full `handleEditMessage` run with the remote outcome as parameter. -/
def handleEditMessage (s : ChatState) (courseId messageId : String) (outcome : EditOutcome) : ChatState :=
  match handleEditBefore s courseId messageId with
  | (s1, some _) => handleEditAfter s1 messageId outcome
  | (s1, none) => s1

/-- Observable connection state of the `WebSocketService` instance fields
read and written by the connect, reconnect and disconnect paths. -/
structure WSState where
  hasClient : Bool := false
  isConnected : Bool := false
  hasConfig : Bool := false
  hasSubscription : Bool := false
  reconnectAttempts : Nat := 0
deriving DecidableEq, Repr

def maxReconnectAttempts : Nat := 5

/-- The `onConnect` handler: marks the connection live, resets the attempt
counter to zero and starts the subscription, which ends up active exactly
when the polling wait observes the client connected. -/
def onConnectStep (s : WSState) (subConfirmed : Bool) : WSState :=
  { s with isConnected := true, reconnectAttempts := 0, hasSubscription := subConfirmed }

/-- The `onDisconnect` handler: drops the connection and the subscription;
while the attempt counter is below the bound it is incremented and a
reconnect is scheduled with delay `5000 * attempts` ms (the counter after
the increment); at the bound nothing is scheduled.  The second component
is the delay of the scheduled reconnect, `none` when none is scheduled. -/
def onDisconnectStep (s : WSState) : WSState × Option Nat :=
  let s1 := { s with isConnected := false, hasSubscription := false }
  if s.reconnectAttempts < maxReconnectAttempts then
    ({ s1 with reconnectAttempts := s.reconnectAttempts + 1 }, some (5000 * (s.reconnectAttempts + 1)))
  else
    (s1, none)

/-- One failed reconnect cycle: the disconnect fires and the scheduled
attempt (if any) fails again, leaving only the state change. -/
def failCycle (s : WSState) : WSState :=
  (onDisconnectStep s).1

/-- The `disconnect` method at its resolution point: when a client exists
and `isConnected` holds, teardown clears the client, the config, the
attempt counter and the subscription; otherwise it resolves immediately
leaving the whole state untouched.  No branch cancels a pending timer. -/
def disconnectStep (s : WSState) : WSState :=
  if s.hasClient && s.isConnected then
    { s with hasSubscription := false, isConnected := false, hasClient := false,
             hasConfig := false, reconnectAttempts := 0 }
  else
    s

/-- The body of the scheduled reconnect timer: it attempts a reconnect
exactly when `this.config` is still set at fire time. -/
def reconnectTimerFires (s : WSState) : Bool :=
  s.hasConfig

/-- First signal that reaches the promise executor of `connect`: the STOMP
connected frame, a STOMP error frame, a synchronous setup exception, or no
signal at all. -/
inductive ConnectSignal where
  | connectedFrame
  | errorFrame
  | setupException
  | noSignal
deriving DecidableEq, Repr

/-- Settlement of a promise. -/
inductive PromiseOutcome where
  | resolved
  | rejected
deriving DecidableEq, Repr

/-- Result of one `connect` call: how the returned promise settled
(`none` when it never settles), whether the topic subscription ended up
active, and whether the subscribe-timeout toast was surfaced. -/
structure ConnectRun where
  settled : Option PromiseOutcome
  subscribed : Bool
  warned : Bool
deriving DecidableEq, Repr

/-- The `connect` method of `WebSocketService`: the connected frame
resolves the promise at once and starts `subscribeToMessages`, whose
bounded 5 s poll either confirms the subscription or surfaces a toast
without touching the promise; an error frame or a setup exception rejects;
with no signal the promise never settles. -/
def runConnect (sig : ConnectSignal) (subConfirmed : Bool) : ConnectRun :=
  match sig with
  | ConnectSignal.connectedFrame =>
      { settled := some PromiseOutcome.resolved, subscribed := subConfirmed, warned := !subConfirmed }
  | ConnectSignal.errorFrame =>
      { settled := some PromiseOutcome.rejected, subscribed := false, warned := false }
  | ConnectSignal.setupException =>
      { settled := some PromiseOutcome.rejected, subscribed := false, warned := false }
  | ConnectSignal.noSignal =>
      { settled := none, subscribed := false, warned := false }

/-- Concrete live message used by the duplicate-live-buffer evaluation. -/
def dupLiveMsg : Message :=
  { id := "w1", content := "hello", type := "TEXT", senderId := "u1", createdAt := 100 }

/-- Concrete inputs witnessing duplicate-free reconciliation. -/
def exLoadedMsg : Message :=
  { id := "h1", content := "old", type := "TEXT", senderId := "u2", createdAt := 50 }

def exLiveMsg : Message :=
  { id := "w2", content := "live", type := "TEXT", senderId := "u2", createdAt := 70 }

def exPendingMsg : Message :=
  { id := "t9", tempId := some "t9", content := "draft", type := "TEXT", senderId := "u1",
    createdAt := 90, status := some MsgStatus.pending }

def exSuccessMsg : Message :=
  { id := "s9", tempId := some "t8", content := "sent", type := "TEXT", senderId := "u1",
    createdAt := 95, status := some MsgStatus.success }

/-- Confirmed message sitting exactly 10000 ms after the optimistic entry. -/
def boundaryMsg : Message :=
  { id := "s2", content := "Hi", type := "TEXT", senderId := "U1", createdAt := 10000 }

def boundaryPending : Message :=
  { id := "t2", tempId := some "t2", content := "Hi", type := "TEXT", senderId := "U1",
    createdAt := 0, status := some MsgStatus.success }

/-- Confirmed message 3000 ms after the optimistic entry, a fuzzy match. -/
def fuzzyMsg : Message :=
  { id := "s1", content := "Hi", type := "TEXT", senderId := "U1", createdAt := 3000 }

def fuzzyPending : Message :=
  { id := "t1", tempId := some "t1", content := "Hi", type := "TEXT", senderId := "U1",
    createdAt := 0, status := some MsgStatus.success }

/-- Two messages with equal timestamps and decreasing ids. -/
def tieMsgB : Message :=
  { id := "b", content := "second", type := "TEXT", senderId := "u1", createdAt := 500 }

def tieMsgA : Message :=
  { id := "a", content := "first", type := "TEXT", senderId := "u2", createdAt := 500 }

/-- Concrete messages for the tombstone evaluation: a deleted id present
in history, the live buffer and the outbox, plus one surviving message. -/
def tombDeletedHist : Message :=
  { id := "x", content := "gone", type := "TEXT", senderId := "u1", createdAt := 10 }

def tombDeletedLive : Message :=
  { id := "x", content := "gone", type := "TEXT", senderId := "u1", createdAt := 11 }

def tombSurvivor : Message :=
  { id := "y", content := "stays", type := "TEXT", senderId := "u2", createdAt := 20 }

/-- Concrete component state for the delete evaluation. -/
def exDeleteState : ChatState :=
  { loadedMessages := [tombDeletedHist, tombSurvivor],
    wsMessages := [tombDeletedLive],
    deletedMessages := [] }

/-- Concrete component state for the edit evaluation. -/
def exEditState : ChatState :=
  { loadedMessages := [tombDeletedHist, tombSurvivor],
    editingMessageId := some "y",
    editingText := " fixed " }

/-- Authoritative payload returned by the update mutation. -/
def exEditPayload : Message :=
  { id := "y", content := "fixed", type := "TEXT", senderId := "u2", createdAt := 21 }

/-- Concrete component state holding a blank draft. -/
def exBlankState : ChatState :=
  { messageText := "   ", pendingMessages := [exPendingMsg] }

/-- Concrete transport state with the attempt counter at zero. -/
def exWSStart : WSState :=
  { hasClient := true, isConnected := true, hasConfig := true, hasSubscription := true,
    reconnectAttempts := 0 }

/-- Transport state after an unexpected drop: the connection is down, a
reconnect timer is pending, and the client and config are still set. -/
def droppedWithTimerState : WSState :=
  { hasClient := true, isConnected := false, hasConfig := true, hasSubscription := false,
    reconnectAttempts := 1 }

/-- Transport state of a live connection about to be torn down. -/
def connectedTeardownState : WSState :=
  { hasClient := true, isConnected := true, hasConfig := true, hasSubscription := true,
    reconnectAttempts := 1 }

/-! Theorems -/

/-- Helper: membership in the reconciled output implies membership in the
tombstone-filtered combined list, and in particular an id outside the
tombstone set. -/
theorem mem_allCombined_of_mem_allMessages {loaded ws pending : List Message}
    {deleted : List String} {m : Message}
    (hm : m ∈ allMessages loaded ws pending deleted) :
    m ∈ allCombined loaded ws pending deleted ∧ m.id ∉ deleted := by
  have hm2 : m ∈ allCombined loaded ws pending deleted :=
    (List.perm_insertionSort newestFirst (allCombined loaded ws pending deleted)).mem_iff.mp hm
  refine ⟨hm2, ?_⟩
  rw [allCombined, List.mem_filter] at hm2
  have := hm2.2
  rwa [decide_eq_true_eq] at this

/-- C1: as amended.  Provided the history window, the live buffer and the
outbox each contain pairwise-distinct message ids, and no PENDING or
ERROR outbox entry reuses an id already present in the history window or
the live buffer, the reconciled output contains no message id twice. -/
theorem allMessages_nodup_of_distinct_sources
    (loaded ws pending : List Message) (deleted : List String)
    (h1 : (loaded.map Message.id).Nodup)
    (h2 : (ws.map Message.id).Nodup)
    (h3 : (pending.map Message.id).Nodup)
    (h4 : ∀ p ∈ pending, p.status ≠ some MsgStatus.success →
            p.id ∉ loaded.map Message.id ∧ p.id ∉ ws.map Message.id) :
    ((allMessages loaded ws pending deleted).map Message.id).Nodup := by
  have hpre : ((allCombined loaded ws pending deleted).map Message.id).Nodup := by
    have hsub : ((allCombined loaded ws pending deleted).map Message.id).Sublist
        ((combinedMessages loaded ws ++
          pendingWithoutDuplicates (combinedMessages loaded ws) pending).map Message.id) := by
      rw [allCombined]
      exact (List.filter_sublist _).map Message.id
    refine hsub.nodup ?_
    rw [List.map_append, List.nodup_append]
    refine ⟨?_, ?_, ?_⟩
    · rw [combinedMessages, List.map_append, List.map_reverse, List.nodup_append]
      refine ⟨List.nodup_reverse.mpr
          (((List.filter_sublist ws).map Message.id).nodup h2), h1, ?_⟩
      intro x hx hx2
      rw [List.mem_reverse] at hx
      simp only [List.mem_map, List.mem_filter, decide_eq_true_eq] at hx
      obtain ⟨w, ⟨_, _, hwnot⟩, rfl⟩ := hx
      exact hwnot (List.mem_map.mp hx2)
    · exact ((List.filter_sublist pending).map Message.id).nodup h3
    · intro x hx hk
      simp only [List.mem_map] at hx hk
      obtain ⟨m, hm, rfl⟩ := hx
      obtain ⟨p, hp, hpid⟩ := hk
      rw [pendingWithoutDuplicates, List.mem_filter] at hp
      obtain ⟨hpmem, hkeep⟩ := hp
      by_cases hst : p.status = some MsgStatus.success
      · rw [keepPending, if_pos hst, decide_eq_true_eq] at hkeep
        exact hkeep ⟨m, hm, Or.inl hpid.symm⟩
      · obtain ⟨hnl, hnw⟩ := h4 p hpmem hst
        rw [combinedMessages, List.mem_append, List.mem_reverse] at hm
        rcases hm with hmw | hml
        · exact hnw (List.mem_map.mpr ⟨m, List.mem_of_mem_filter hmw, hpid.symm⟩)
        · exact hnl (List.mem_map.mpr ⟨m, hml, hpid.symm⟩)
  exact ((List.perm_insertionSort newestFirst
    (allCombined loaded ws pending deleted)).map Message.id).nodup_iff.mpr hpre

/-- Witness for the amended C1 theorem at concrete inputs. -/
theorem allMessages_nodup_witness :
    (([exLoadedMsg].map Message.id).Nodup ∧ ([exLiveMsg].map Message.id).Nodup ∧
      (([exPendingMsg, exSuccessMsg]).map Message.id).Nodup) ∧
    ((allMessages [exLoadedMsg] [exLiveMsg] [exPendingMsg, exSuccessMsg] []).map
      Message.id).Nodup :=
  ⟨⟨by decide, by decide, by decide⟩,
    allMessages_nodup_of_distinct_sources [exLoadedMsg] [exLiveMsg]
      [exPendingMsg, exSuccessMsg] [] (by decide) (by decide) (by decide) (by decide)⟩

/-- C1: counterexample to the claim as stated.  When the same (non-empty)
id occurs twice inside the live buffer, both copies reach the reconciled
output: the live merge deduplicates only against the history window. -/
theorem live_duplicate_counterexample :
    dupLiveMsg.id ≠ "" ∧
    ¬ (((allMessages [] [dupLiveMsg, dupLiveMsg] [] []).map Message.id).Nodup) := by
  decide

/-- C2: as amended.  A SUCCESS outbox entry is dropped by the duplicate
filter exactly when the merged history-plus-live list contains a message
sharing its id, or matching its content, sender and kind with timestamps
STRICTLY less than 10000 ms apart; PENDING and ERROR entries always pass
this filter. -/
theorem success_dedup_characterization (combined : List Message) (p : Message) :
    (p.status = some MsgStatus.success →
      (keepPending combined p = false ↔
        ∃ msg ∈ combined, msg.id = p.id ∨
          (msg.content = p.content ∧ msg.senderId = p.senderId ∧ msg.type = p.type ∧
            (msg.createdAt - p.createdAt).natAbs < 10000))) ∧
    (p.status ≠ some MsgStatus.success → keepPending combined p = true) := by
  constructor
  · intro hst
    rw [keepPending, if_pos hst]
    simp only [decide_eq_false_iff_not, not_not, isDuplicateOf]
  · intro hst
    rw [keepPending, if_neg hst]

/-- Witness for the amended C2 theorem: a fuzzy match 3000 ms apart drops
the SUCCESS entry. -/
theorem success_dedup_witness :
    fuzzyPending.status = some MsgStatus.success ∧
    keepPending [fuzzyMsg] fuzzyPending = false :=
  ⟨rfl, ((success_dedup_characterization [fuzzyMsg] fuzzyPending).1 rfl).mpr
    ⟨fuzzyMsg, by decide, by decide⟩⟩

/-- C2: counterexample to the claim as stated.  With `createdAt`
differing by exactly 10000 ms — inside the inclusive ten-second interval
the claim asserts — the SUCCESS entry is kept, because the source tests
`timeDiff < 10000` strictly. -/
theorem success_dedup_boundary_counterexample :
    boundaryPending.status = some MsgStatus.success ∧
    boundaryMsg.content = boundaryPending.content ∧
    boundaryMsg.senderId = boundaryPending.senderId ∧
    boundaryMsg.type = boundaryPending.type ∧
    boundaryMsg.id ≠ boundaryPending.id ∧
    (boundaryMsg.createdAt - boundaryPending.createdAt).natAbs = 10000 ∧
    keepPending [boundaryMsg] boundaryPending = true := by
  decide

/-- C3: every id in the tombstone set is excluded from the reconciled
output, wherever the entry came from (history, live buffer or outbox);
and a successful delete puts the deleted id into the tombstone set. -/
theorem tombstone_excludes (loaded ws pending : List Message) (deleted : List String)
    (m1 : String) (h : m1 ∈ deleted) :
    (∀ m ∈ allMessages loaded ws pending deleted, m.id ≠ m1) ∧
    (∀ s : ChatState, m1 ∈ (handleDeleteMessage s m1 true).deletedMessages) := by
  constructor
  · intro m hm
    have hnot := (mem_allCombined_of_mem_allMessages hm).2
    intro e
    rw [e] at hnot
    exact hnot h
  · intro s
    simp [handleDeleteMessage, handleDeleteBefore]

/-- Witness for the C3 theorem: with id x tombstoned and copies of x in
the history window and the live buffer, the survivor is the only output
and carries a different id. -/
theorem tombstone_excludes_witness :
    ("x" ∈ ["x"]) ∧ tombSurvivor.id ≠ "x" :=
  ⟨by decide,
    (tombstone_excludes [tombDeletedHist, tombSurvivor] [tombDeletedLive] [] ["x"] "x"
      (by decide)).1 tombSurvivor (by decide)⟩

/-- C4: before the remote delete returns, neither the history window, nor
the live buffer, nor the tombstone set changes; on success the message is
removed from history and live buffer and its id is tombstoned; on failure
all three are unchanged and an error toast is surfaced. -/
theorem delete_remote_first (s : ChatState) (messageId : String) :
    ((handleDeleteBefore s messageId).loadedMessages = s.loadedMessages ∧
      (handleDeleteBefore s messageId).wsMessages = s.wsMessages ∧
      (handleDeleteBefore s messageId).deletedMessages = s.deletedMessages) ∧
    ((∀ m ∈ (handleDeleteMessage s messageId true).loadedMessages, m.id ≠ messageId) ∧
      (∀ m ∈ (handleDeleteMessage s messageId true).wsMessages, m.id ≠ messageId) ∧
      messageId ∈ (handleDeleteMessage s messageId true).deletedMessages) ∧
    ((handleDeleteMessage s messageId false).loadedMessages = s.loadedMessages ∧
      (handleDeleteMessage s messageId false).wsMessages = s.wsMessages ∧
      (handleDeleteMessage s messageId false).deletedMessages = s.deletedMessages ∧
      deleteErrToast ∈ (handleDeleteMessage s messageId false).toasts) := by
  refine ⟨⟨rfl, rfl, rfl⟩, ⟨?_, ?_, ?_⟩, ?_⟩
  · intro m hm
    simp only [handleDeleteMessage, handleDeleteBefore, removeById, if_true,
      List.mem_filter, decide_eq_true_eq] at hm
    exact hm.2
  · intro m hm
    simp only [handleDeleteMessage, handleDeleteBefore, removeById, if_true,
      List.mem_filter, decide_eq_true_eq] at hm
    exact hm.2
  · simp [handleDeleteMessage, handleDeleteBefore]
  · refine ⟨rfl, rfl, rfl, ?_⟩
    simp [handleDeleteMessage, handleDeleteBefore]

/-- Witness for the C4 theorem at a concrete state. -/
theorem delete_remote_first_witness :
    tombSurvivor ∈ (handleDeleteMessage exDeleteState "x" true).loadedMessages ∧
    tombSurvivor.id ≠ "x" :=
  ⟨by decide, (delete_remote_first exDeleteState "x").2.1.1 tombSurvivor (by decide)⟩

/-- C5: for a non-blank edit, the optimistic content patch is applied to
the history window in the very state from which the remote request is
issued; on success the message is patched again with the authoritative
payload; on failure an error toast is surfaced and every copy of the
message still carries the optimistic content (no rollback). -/
theorem edit_optimistic_no_rollback (s : ChatState) (courseId messageId : String)
    (d : Message) (h : jsTrim s.editingText ≠ "") :
    (handleEditBefore s courseId messageId =
      ({ s with updatingMessages := messageId :: s.updatingMessages,
                loadedMessages := patchById s.loadedMessages messageId
                  (fun m => { m with content := jsTrim s.editingText }) },
        some { courseId := courseId, messageId := messageId, type := "TEXT",
               content := jsTrim s.editingText })) ∧
    ((handleEditMessage s courseId messageId (EditOutcome.success (some d))).loadedMessages =
      patchById (patchById s.loadedMessages messageId
        (fun m => { m with content := jsTrim s.editingText })) messageId (fun _ => d)) ∧
    (editErrToast ∈ (handleEditMessage s courseId messageId EditOutcome.failure).toasts ∧
      (handleEditMessage s courseId messageId EditOutcome.failure).loadedMessages =
        patchById s.loadedMessages messageId
          (fun m => { m with content := jsTrim s.editingText }) ∧
      ∀ m ∈ (handleEditMessage s courseId messageId EditOutcome.failure).loadedMessages,
        m.id = messageId → m.content = jsTrim s.editingText) := by
  have hbefore : handleEditBefore s courseId messageId =
      ({ s with updatingMessages := messageId :: s.updatingMessages,
                loadedMessages := patchById s.loadedMessages messageId
                  (fun m => { m with content := jsTrim s.editingText }) },
        some { courseId := courseId, messageId := messageId, type := "TEXT",
               content := jsTrim s.editingText }) := by
    rw [handleEditBefore, if_neg h]
  refine ⟨hbefore, ?_, ?_, ?_, ?_⟩
  · rw [handleEditMessage, hbefore]
    simp [handleEditAfter]
  · rw [handleEditMessage, hbefore]
    simp [handleEditAfter]
  · rw [handleEditMessage, hbefore]
    simp [handleEditAfter]
  · intro m hm hid
    rw [handleEditMessage, hbefore] at hm
    simp only [handleEditAfter] at hm
    rw [patchById, List.mem_map] at hm
    obtain ⟨m0, _, hEq⟩ := hm
    by_cases h0 : m0.id = messageId
    · rw [if_pos h0] at hEq
      rw [← hEq]
    · rw [if_neg h0] at hEq
      rw [← hEq] at hid
      exact absurd hid h0

/-- Witness for the C5 theorem at a concrete state. -/
theorem edit_optimistic_no_rollback_witness :
    jsTrim exEditState.editingText ≠ "" ∧
    editErrToast ∈ (handleEditMessage exEditState "c1" "y" EditOutcome.failure).toasts :=
  ⟨by decide,
    (edit_optimistic_no_rollback exEditState "c1" "y" exEditPayload (by decide)).2.2.1⟩

/-- C6: below the bound a disconnect schedules a reconnect whose delay is
5000 ms scaled by the (incremented) attempt count; at or above the bound
nothing is ever scheduled again (the counter is absorbing) and the state
stays disconnected; five consecutive failed reconnects starting from a
fresh counter exhaust the budget; a successful connect resets the counter
to zero. -/
theorem reconnect_policy (s : WSState) :
    (s.reconnectAttempts < maxReconnectAttempts →
      (onDisconnectStep s).2 = some (5000 * (s.reconnectAttempts + 1)) ∧
      (onDisconnectStep s).1.reconnectAttempts = s.reconnectAttempts + 1 ∧
      (onDisconnectStep s).1.isConnected = false) ∧
    (maxReconnectAttempts ≤ s.reconnectAttempts →
      (onDisconnectStep s).2 = none ∧
      (onDisconnectStep s).1.reconnectAttempts = s.reconnectAttempts ∧
      (onDisconnectStep s).1.isConnected = false) ∧
    (s.reconnectAttempts = 0 →
      (failCycle (failCycle (failCycle (failCycle (failCycle s))))).reconnectAttempts =
        maxReconnectAttempts ∧
      (onDisconnectStep (failCycle (failCycle (failCycle (failCycle (failCycle s)))))).2 =
        none) ∧
    (∀ subConfirmed : Bool, (onConnectStep s subConfirmed).reconnectAttempts = 0) := by
  refine ⟨?_, ?_, ?_, ?_⟩
  · intro h
    rw [onDisconnectStep]
    rw [if_pos h]
    exact ⟨rfl, rfl, rfl⟩
  · intro h
    rw [onDisconnectStep]
    rw [if_neg (Nat.not_lt.mpr h)]
    exact ⟨rfl, rfl, rfl⟩
  · intro h
    simp [failCycle, onDisconnectStep, maxReconnectAttempts, h]
  · intro subConfirmed
    rfl

/-- Witness for the C6 theorem: from a fresh connection, five failed
reconnect cycles exhaust the budget and the sixth disconnect schedules
nothing. -/
theorem reconnect_policy_witness :
    exWSStart.reconnectAttempts = 0 ∧
    (failCycle (failCycle (failCycle (failCycle (failCycle exWSStart))))).reconnectAttempts =
      maxReconnectAttempts ∧
    (onDisconnectStep (failCycle (failCycle (failCycle (failCycle (failCycle exWSStart)))))).2 =
      none := by
  have h := (reconnect_policy exWSStart).2.2.1 rfl
  exact ⟨rfl, h.1, h.2⟩

/-- C7: as amended.  The connect promise resolves as soon as the STOMP
connected frame arrives, regardless of whether the topic subscription is
ever confirmed (an unconfirmed subscription only surfaces a warning
toast); it rejects on a STOMP error frame or a synchronous setup
exception; and it never settles when no frame arrives at all. -/
theorem connect_settlement :
    ∀ subConfirmed : Bool,
      (runConnect ConnectSignal.connectedFrame subConfirmed).settled =
        some PromiseOutcome.resolved ∧
      (runConnect ConnectSignal.connectedFrame subConfirmed).subscribed = subConfirmed ∧
      (runConnect ConnectSignal.connectedFrame subConfirmed).warned = (!subConfirmed) ∧
      (runConnect ConnectSignal.errorFrame subConfirmed).settled =
        some PromiseOutcome.rejected ∧
      (runConnect ConnectSignal.setupException subConfirmed).settled =
        some PromiseOutcome.rejected ∧
      (runConnect ConnectSignal.noSignal subConfirmed).settled = none := by
  decide

/-- C7: counterexample to the claim as stated.  The promise resolves with
success even though the subscription was never confirmed within the
bounded wait: resolution does not wait for subscription confirmation. -/
theorem connect_resolves_without_subscription :
    (runConnect ConnectSignal.connectedFrame false).settled =
      some PromiseOutcome.resolved ∧
    (runConnect ConnectSignal.connectedFrame false).subscribed = false ∧
    (runConnect ConnectSignal.connectedFrame false).warned = true := by
  decide

/-- C8: as amended.  The reconciled output is sorted by `createdAt`
descending and is a permutation of the tombstone-filtered combined list;
the stable sort keeps equal-`createdAt` entries in their combined-list
order instead of ordering them by id. -/
theorem allMessages_sorted_desc (loaded ws pending : List Message) (deleted : List String) :
    List.Sorted newestFirst (allMessages loaded ws pending deleted) ∧
    (allMessages loaded ws pending deleted).Perm (allCombined loaded ws pending deleted) :=
  ⟨List.sorted_insertionSort newestFirst (allCombined loaded ws pending deleted),
    List.perm_insertionSort newestFirst (allCombined loaded ws pending deleted)⟩

/-- C8: counterexample to the claim as stated.  Two messages with equal
`createdAt` keep their input order, whichever it was: the output is not
id-ordered on ties and is not a function of the input set alone. -/
theorem allMessages_tie_order_counterexample :
    tieMsgA.createdAt = tieMsgB.createdAt ∧ tieMsgA.id ≠ tieMsgB.id ∧
    allMessages [tieMsgB, tieMsgA] [] [] [] = [tieMsgB, tieMsgA] ∧
    allMessages [tieMsgA, tieMsgB] [] [] [] = [tieMsgA, tieMsgB] := by
  decide

/-- C9: evaluation of the teardown leak.  When `disconnect` runs while the
underlying connection has already dropped (`isConnected` false) with a
reconnect timer pending, it resolves leaving the config in place, and the
pending timer still performs a reconnect attempt; only the connected-path
teardown neuters the timer. -/
theorem disconnect_leaks_pending_reconnect :
    disconnectStep droppedWithTimerState = droppedWithTimerState ∧
    reconnectTimerFires (disconnectStep droppedWithTimerState) = true ∧
    reconnectTimerFires (disconnectStep connectedTeardownState) = false := by
  decide

/-- C10: a draft whose text is blank after trimming makes the send
handler a complete no-op: the state is returned unchanged and no network
request is issued. -/
theorem send_blank_is_noop (emojiToText : String → String)
    (currentUserId userName courseId tempId : String) (now : Int) (s : ChatState)
    (h : jsTrim s.messageText = "") :
    handleSendMessage emojiToText currentUserId userName courseId tempId now s = (s, none) := by
  rw [handleSendMessage, if_pos h]

/-- Witness for the C10 theorem: a whitespace-only draft with a non-empty
outbox is left untouched and sends nothing. -/
theorem send_blank_is_noop_witness :
    jsTrim exBlankState.messageText = "" ∧
    handleSendMessage (fun t => t) "u1" "User" "c1" "tmp1" 0 exBlankState =
      (exBlankState, none) :=
  ⟨by decide,
    send_blank_is_noop (fun t => t) "u1" "User" "c1" "tmp1" 0 exBlankState (by decide)⟩

end CourseChat
